import Mathlib

/-!
Verification of the authentication/authorization core of a Streamlit Azure
starter application: the session store (`app/core/session_manager.py`) and the
auth flow (`app/core/auth.py`).

The Python code is shallowly embedded:

* Streamlit's `st.session_state` is a key/value store; the auth code only ever
  touches the keys `access_token`, `user_info`, `is_authenticated` and
  `session_log_info`, so it is modelled as a record of `Option`-valued fields
  (`none` = key absent).
* A JSON dictionary (user profile, token claim set, MSAL result) is modelled as
  an association list `List (String × String)`; Python's `d.get(k)` /
  `d[k]` correspond to `List.lookup`.
* External effects (MSAL token exchange, JWT decoding, the Graph HTTP call)
  are parameters of the flow, each an `Except String _` — `Except.error`
  models the Python call raising an exception, `Except.ok` a normal return.
* Python truthiness of the values involved: `None` and `""` are falsy for the
  access token; `None` and `{}` are falsy for the profile dictionary.
* `handle_auth_code` / `enforce_auth_or_display_sign_in` return a
  `FlowOutcome` recording the returned value (or the propagated exception),
  the final session state, the final query parameters, the screens rendered,
  the sub-steps attempted and the network calls performed.
-/

deriving instance DecidableEq for Except

/-- A JSON-like string dictionary (profile dict, claim set, MSAL result). -/
abbrev Dict := List (String × String)

/-- The keys of Streamlit's `st.session_state` that the session manager and the
auth flow read or write; `none` means the key is absent from the store. -/
structure SessionState where
  access_token : Option String
  user_info : Option Dict
  is_authenticated : Option Bool
  session_log_info : Option Dict
  deriving Repr, DecidableEq

/-- The session state with no keys set (a fresh Streamlit session). -/
def SessionState.empty : SessionState :=
  { access_token := none, user_info := none,
    is_authenticated := none, session_log_info := none }

namespace SessionManager

/-- `SessionManager.initialize_session`: stores the access token and the user
info in the session state, then sets the authenticated flag. -/
def initialize_session (access_token : String) (user_info : Dict)
    (s : SessionState) : SessionState :=
  { s with access_token := some access_token,
           user_info := some user_info,
           is_authenticated := some true }

/-- `SessionManager.clear_session`: deletes each of the keys `user_info`,
`is_authenticated`, `session_log_info` if present (`keys_to_clear` in the
source — note the list does not include `access_token`). -/
def clear_session (s : SessionState) : SessionState :=
  { s with user_info := none,
           is_authenticated := none,
           session_log_info := none }

/-- `SessionManager.is_authenticated`:
`st.session_state.get('is_authenticated', False)`. -/
def is_authenticated (s : SessionState) : Bool :=
  s.is_authenticated.getD false

/-- `SessionManager.get_user_info`: `st.session_state.get('user_info', {})`. -/
def get_user_info (s : SessionState) : Dict :=
  s.user_info.getD []

end SessionManager

/-- `is_allowed_tenant`: `tenant_id in config.ALLOWED_TENANTS`. The caller
passes the result of `get_tenant_id_from_token`, which may be `None`; Python's
`in` compares with `==`, and `None` never equals a string, so a `none` tenant
id is never a member of a list of strings. -/
def is_allowed_tenant (tenant_id : Option String) (allowed_tenants : List String) : Bool :=
  match tenant_id with
  | some t => allowed_tenants.contains t
  | none => false

/-- An HTTP response as seen by `get_user_info`: `requests.get`'s status code
together with the parsed JSON body (`response.json()`). -/
structure HttpResponse where
  status_code : Nat
  body : Dict
  deriving Repr, DecidableEq

/-- The external collaborators of the auth flow, passed as parameters of the
embedding. Each call is `Except String _`: `Except.error msg` models the
Python call raising an exception with message `msg`, `Except.ok` a normal
return.
* `acquire_token_by_authorization_code` — MSAL's token exchange inside
  `get_token_from_code` (returns the result dictionary);
* `jwt_decode` — the body of `decode_token`'s `try` block
  (`jwt.get_unverified_header` + `jwt.decode`, returning the claim set);
* `graph_get_me` — `requests.get("https://graph.microsoft.com/v1.0/me", ...)`;
* `allowed_tenants` — `config.ALLOWED_TENANTS`. -/
structure AuthEnv where
  acquire_token_by_authorization_code : String → Except String Dict
  jwt_decode : String → Except String Dict
  graph_get_me : String → Except String HttpResponse
  allowed_tenants : List String

/-- `get_token_from_code`: exchanges the authorization code for a token and
returns `result.get("access_token")`; any exception is caught and logged and
`None` is returned. -/
def get_token_from_code (env : AuthEnv) (auth_code : String) : Option String :=
  match env.acquire_token_by_authorization_code auth_code with
  | Except.ok result => result.lookup "access_token"
  | Except.error _ => none

/-- `decode_token`: decodes the JWT claims without signature verification; any
exception is caught and logged and `None` is returned. -/
def decode_token (env : AuthEnv) (token : String) : Option Dict :=
  match env.jwt_decode token with
  | Except.ok decoded_token => some decoded_token
  | Except.error _ => none

/-- `get_tenant_id_from_token`: `decode_token(access_token)['tid']` inside a
`try` — both a failed decode (subscripting `None`) and a missing `tid` key
raise, are caught, and yield `None`. -/
def get_tenant_id_from_token (env : AuthEnv) (access_token : String) : Option String :=
  match decode_token env access_token with
  | some decoded_token => decoded_token.lookup "tid"
  | none => none

/-- `get_user_info` (auth module): calls the Graph `/me` endpoint. A 200
response returns the JSON body, any other status returns `None`. The
`requests.get` call itself is NOT inside a `try`/`except`, so a transport
exception propagates to the caller (`Except.error`). -/
def get_user_info (env : AuthEnv) (access_token : String) : Except String (Option Dict) :=
  match env.graph_get_me access_token with
  | Except.error e => Except.error e
  | Except.ok response =>
    if response.status_code = 200 then Except.ok (some response.body)
    else Except.ok none

/-- The screens / messages the flow can render via Streamlit. -/
inductive Display where
  | errorMsg (msg : String)
  | signInScreen
  | invalidTenantScreen
  deriving Repr, DecidableEq

/-- The four sub-steps of `handle_auth_code`, used to record which steps an
invocation attempted. -/
inductive Step where
  | tokenAcquisition
  | claimExtraction
  | allowListCheck
  | profileFetch
  deriving Repr, DecidableEq

/-- The network operations the flow can perform. -/
inductive NetCall where
  | tokenExchange (auth_code : String)
  | graphRequest (access_token : String)
  deriving Repr, DecidableEq

/-- What one invocation of the flow did: the Python return value (or the
propagated exception, as `Except.error`), the final session state, the final
query parameters, the screens rendered, the sub-steps attempted and the
network calls performed. -/
structure FlowOutcome where
  result : Except String Bool
  session : SessionState
  query_params : Dict
  displays : List Display
  steps : List Step
  net_calls : List NetCall
  deriving Repr, DecidableEq

/-- `handle_auth_code(auth_code)`. `st.query_params.clear()` runs immediately
after the token exchange, before any branch, so every path returns with empty
query parameters. `if not access_token:` is a Python truthiness test: both
`None` and `""` take the failure branch; likewise `if not user_info:` treats
both `None` and the empty dictionary `{}` as failure. -/
def handle_auth_code (env : AuthEnv) (s : SessionState) (auth_code : String) : FlowOutcome :=
  match get_token_from_code env auth_code with
  | none =>
    { result := Except.ok false, session := s, query_params := [],
      displays := [Display.errorMsg "Authentication failed."],
      steps := [Step.tokenAcquisition],
      net_calls := [NetCall.tokenExchange auth_code] }
  | some access_token =>
    if access_token.isEmpty then
      { result := Except.ok false, session := s, query_params := [],
        displays := [Display.errorMsg "Authentication failed."],
        steps := [Step.tokenAcquisition],
        net_calls := [NetCall.tokenExchange auth_code] }
    else
      if is_allowed_tenant (get_tenant_id_from_token env access_token)
          env.allowed_tenants = false then
        { result := Except.ok false, session := s, query_params := [],
          displays := [Display.invalidTenantScreen],
          steps := [Step.tokenAcquisition, Step.claimExtraction, Step.allowListCheck],
          net_calls := [NetCall.tokenExchange auth_code] }
      else
        match get_user_info env access_token with
        | Except.error e =>
          { result := Except.error e, session := s, query_params := [],
            displays := [],
            steps := [Step.tokenAcquisition, Step.claimExtraction,
                      Step.allowListCheck, Step.profileFetch],
            net_calls := [NetCall.tokenExchange auth_code,
                          NetCall.graphRequest access_token] }
        | Except.ok none =>
          { result := Except.ok false, session := s, query_params := [],
            displays := [Display.errorMsg "Failed to retrieve user information."],
            steps := [Step.tokenAcquisition, Step.claimExtraction,
                      Step.allowListCheck, Step.profileFetch],
            net_calls := [NetCall.tokenExchange auth_code,
                          NetCall.graphRequest access_token] }
        | Except.ok (some user_info) =>
          if user_info.isEmpty then
            { result := Except.ok false, session := s, query_params := [],
              displays := [Display.errorMsg "Failed to retrieve user information."],
              steps := [Step.tokenAcquisition, Step.claimExtraction,
                        Step.allowListCheck, Step.profileFetch],
              net_calls := [NetCall.tokenExchange auth_code,
                            NetCall.graphRequest access_token] }
          else
            { result := Except.ok true,
              session := SessionManager.initialize_session access_token user_info s,
              query_params := [],
              displays := [],
              steps := [Step.tokenAcquisition, Step.claimExtraction,
                        Step.allowListCheck, Step.profileFetch],
              net_calls := [NetCall.tokenExchange auth_code,
                            NetCall.graphRequest access_token] }

/-- `enforce_auth_or_display_sign_in()`: returns `True` immediately when the
session is already authenticated; otherwise handles a `code` query parameter
if present, else renders the sign-in screen and returns `False`. -/
def enforce_auth_or_display_sign_in (env : AuthEnv) (s : SessionState)
    (query_params : Dict) : FlowOutcome :=
  if SessionManager.is_authenticated s then
    { result := Except.ok true, session := s, query_params := query_params,
      displays := [], steps := [], net_calls := [] }
  else
    match query_params.lookup "code" with
    | some auth_code => handle_auth_code env s auth_code
    | none =>
      { result := Except.ok false, session := s, query_params := query_params,
        displays := [Display.signInScreen], steps := [], net_calls := [] }

/-- The four sub-steps of the auth-code flow all succeed, stated as a
conjunction over the individual step functions: the token exchange yields a
non-empty access token, the tenant claim is extracted, the tenant is in the
allow-list, and the profile fetch returns a non-empty profile. -/
def all_steps_succeed (env : AuthEnv) (auth_code : String) : Prop :=
  ∃ (access_token tenant_id : String) (user_info : Dict),
    get_token_from_code env auth_code = some access_token ∧
    access_token ≠ "" ∧
    get_tenant_id_from_token env access_token = some tenant_id ∧
    is_allowed_tenant (some tenant_id) env.allowed_tenants = true ∧
    get_user_info env access_token = Except.ok (some user_info) ∧
    user_info ≠ []

/-- A session state reachable through the Session Store's operations, starting
from a fresh Streamlit session. -/
inductive ReachableSession : SessionState → Prop where
  | empty : ReachableSession SessionState.empty
  | init (access_token : String) (user_info : Dict) (s : SessionState) :
      ReachableSession s →
      ReachableSession (SessionManager.initialize_session access_token user_info s)
  | clear (s : SessionState) :
      ReachableSession s → ReachableSession (SessionManager.clear_session s)

/-! ### Concrete fixtures used by witnesses and counterexamples -/

/-- An environment in which every external call succeeds:
the exchange returns token `"tok1"`, its claims carry `tid = "tenant-1"`,
the allow-list is `["tenant-1"]`, and Graph returns a 200 profile. -/
def okEnv : AuthEnv :=
  { acquire_token_by_authorization_code := fun _ =>
      Except.ok [("access_token", "tok1"), ("token_type", "Bearer")],
    jwt_decode := fun _ => Except.ok [("tid", "tenant-1"), ("aud", "client-1")],
    graph_get_me := fun _ =>
      Except.ok { status_code := 200, body := [("displayName", "Alice")] },
    allowed_tenants := ["tenant-1"] }

/-- Like `okEnv`, but the Graph HTTP transport raises (e.g. a connection
error) instead of returning a response. -/
def raiseEnv : AuthEnv :=
  { okEnv with graph_get_me := fun _ =>
      Except.error "requests.exceptions.ConnectionError" }

/-- Like `okEnv`, but the decoded claim set has no `tid` key. -/
def noTidEnv : AuthEnv :=
  { okEnv with jwt_decode := fun _ => Except.ok [("aud", "client-1")] }

/-- Like `okEnv`, but the MSAL token exchange raises. -/
def exchangeFailEnv : AuthEnv :=
  { okEnv with acquire_token_by_authorization_code := fun _ =>
      Except.error "invalid_grant" }

/-- A session state in which a user is signed in. -/
def authSession : SessionState :=
  SessionManager.initialize_session "tok0" [("displayName", "Bob")] SessionState.empty

/-- C5: for all tenant ids `t` and string allow-lists `L`,
`is_allowed_tenant (some t) L` decides exact (case-sensitive, unnormalized)
list membership `t ∈ L`, and `is_allowed_tenant none L = false` for every `L`. -/
theorem C5_is_allowed_tenant_spec :
    (∀ (t : String) (L : List String),
      is_allowed_tenant (some t) L = decide (t ∈ L)) ∧
    (∀ (L : List String), is_allowed_tenant none L = false) := by
  constructor
  · intro t L
    by_cases h : t ∈ L <;> simp [is_allowed_tenant, h]
  · intro L
    rfl

/-- Helper: when some sub-step fails, `handle_auth_code` leaves the session
state untouched (it returns on each failure branch without writing to the
session). -/
theorem handle_auth_code_session_of_failure (env : AuthEnv) (s : SessionState)
    (auth_code : String) (h : ¬ all_steps_succeed env auth_code) :
    (handle_auth_code env s auth_code).session = s := by
  unfold handle_auth_code
  cases htok : get_token_from_code env auth_code with
  | none => rfl
  | some access_token =>
    by_cases hemp : access_token.isEmpty = true
    · simp [hemp]
    · cases htid : get_tenant_id_from_token env access_token with
      | none => simp [hemp, htid, is_allowed_tenant]
      | some tenant_id =>
        by_cases hallow : is_allowed_tenant (some tenant_id) env.allowed_tenants = false
        · simp [hemp, htid, hallow]
        · have hallow' : is_allowed_tenant (some tenant_id) env.allowed_tenants = true := by
            cases hval : is_allowed_tenant (some tenant_id) env.allowed_tenants with
            | false => exact absurd hval hallow
            | true => rfl
          cases hui : get_user_info env access_token with
          | error e => simp [hemp, htid, hallow', hui]
          | ok body =>
            cases body with
            | none => simp [hemp, htid, hallow', hui]
            | some user_info =>
              by_cases huie : user_info.isEmpty = true
              · simp [hemp, htid, hallow', hui, huie]
              · exact absurd
                  ⟨access_token, tenant_id, user_info, htok,
                    fun hc => hemp (by rw [hc]; rfl), htid, hallow', hui,
                    fun hc => huie (by rw [hc]; rfl)⟩ h

/-- Helper: when all four sub-steps succeed, `handle_auth_code` commits the
session via `initialize_session` and returns `True`. -/
theorem handle_auth_code_of_success (env : AuthEnv) (s : SessionState)
    (auth_code : String) (h : all_steps_succeed env auth_code) :
    ∃ (access_token : String) (user_info : Dict),
      handle_auth_code env s auth_code =
        { result := Except.ok true,
          session := SessionManager.initialize_session access_token user_info s,
          query_params := [],
          displays := [],
          steps := [Step.tokenAcquisition, Step.claimExtraction,
                    Step.allowListCheck, Step.profileFetch],
          net_calls := [NetCall.tokenExchange auth_code,
                        NetCall.graphRequest access_token] } := by
  obtain ⟨access_token, tenant_id, user_info, h1, h2, h3, h4, h5, h6⟩ := h
  refine ⟨access_token, user_info, ?_⟩
  have hemp : access_token.isEmpty = false := by
    cases he : access_token.isEmpty with
    | false => rfl
    | true => exact absurd ((String.isEmpty_iff access_token).mp he) h2
  have huie : user_info.isEmpty = false := by
    cases he : user_info.isEmpty with
    | false => rfl
    | true => exact absurd (List.isEmpty_iff.mp he) h6
  unfold handle_auth_code
  rw [h1]
  simp [hemp, h3, h4, h5, huie]

/-- C1: when the flow runs on an unauthenticated session with an authorization
code present, the final session is marked authenticated iff all four steps
(token acquisition, tenant-claim extraction, allow-list membership, profile
retrieval) succeeded; on any failure the session state is left exactly as it
was (no partial session is committed), so `is_authenticated` stays false. -/
theorem C1_authenticated_iff_all_steps_succeed (env : AuthEnv) (s : SessionState)
    (query_params : Dict) (auth_code : String)
    (hauth : SessionManager.is_authenticated s = false)
    (hcode : query_params.lookup "code" = some auth_code) :
    (SessionManager.is_authenticated
        (enforce_auth_or_display_sign_in env s query_params).session = true
      ↔ all_steps_succeed env auth_code) ∧
    (¬ all_steps_succeed env auth_code →
      (enforce_auth_or_display_sign_in env s query_params).session = s) := by
  have henf : enforce_auth_or_display_sign_in env s query_params
      = handle_auth_code env s auth_code := by
    simp [enforce_auth_or_display_sign_in, hauth, hcode]
  rw [henf]
  by_cases h : all_steps_succeed env auth_code
  · obtain ⟨access_token, user_info, heq⟩ := handle_auth_code_of_success env s auth_code h
    rw [heq]
    exact ⟨⟨fun _ => h, fun _ => rfl⟩, fun hc => absurd h hc⟩
  · have hs := handle_auth_code_session_of_failure env s auth_code h
    rw [hs, hauth]
    exact ⟨⟨fun hc => absurd hc (by decide), fun hc => absurd hc h⟩, fun _ => rfl⟩

/-- Witness for C1 at a concrete environment in which every step succeeds. -/
theorem C1_witness :
    SessionManager.is_authenticated SessionState.empty = false ∧
    ([("code", "abc")] : Dict).lookup "code" = some "abc" ∧
    ((SessionManager.is_authenticated
        (enforce_auth_or_display_sign_in okEnv SessionState.empty
          [("code", "abc")]).session = true
      ↔ all_steps_succeed okEnv "abc") ∧
    (¬ all_steps_succeed okEnv "abc" →
      (enforce_auth_or_display_sign_in okEnv SessionState.empty
        [("code", "abc")]).session = SessionState.empty)) :=
  ⟨rfl, rfl,
   C1_authenticated_iff_all_steps_succeed okEnv SessionState.empty
     [("code", "abc")] "abc" rfl rfl⟩

/-- C2: counter-evidence. `get_user_info` does not guard the `requests.get`
call with `try`/`except`, so when the HTTP transport raises during the profile
fetch the exception propagates through `handle_auth_code` and
`enforce_auth_or_display_sign_in` to the caller, instead of being converted to
one of the three result states. -/
theorem C2_transport_exception_propagates :
    (enforce_auth_or_display_sign_in raiseEnv SessionState.empty
        [("code", "abc")]).result
      = Except.error "requests.exceptions.ConnectionError" := rfl

/-- C3: counterexample. When the token decodes but carries no `tid` claim,
the flow renders the access-denied (invalid tenant) screen — not the generic
"Authentication failed." presentation the claim reserves for this case. -/
theorem C3_counterexample :
    (enforce_auth_or_display_sign_in noTidEnv SessionState.empty
        [("code", "abc")]).displays = [Display.invalidTenantScreen] ∧
    (enforce_auth_or_display_sign_in noTidEnv SessionState.empty
        [("code", "abc")]).displays ≠ [Display.errorMsg "Authentication failed."] :=
  ⟨rfl, by decide⟩

/-- C3 (amended): a missing or unreadable tenant claim makes
`get_tenant_id_from_token` return `None`; the allow-list check then fails
(`None` is never allowed) and `handle_auth_code` routes to the access-denied
(invalid tenant) presentation and returns `False`, leaving the session
untouched — the same presentation as the policy rejection, with no distinct
generic claim-extraction error. -/
theorem C3_missing_claim_routes_to_access_denied (env : AuthEnv) (s : SessionState)
    (auth_code access_token : String)
    (htok : get_token_from_code env auth_code = some access_token)
    (hne : access_token.isEmpty = false)
    (htid : get_tenant_id_from_token env access_token = none) :
    (handle_auth_code env s auth_code).displays = [Display.invalidTenantScreen] ∧
    (handle_auth_code env s auth_code).result = Except.ok false ∧
    (handle_auth_code env s auth_code).session = s := by
  unfold handle_auth_code
  rw [htok]
  simp [hne, htid, is_allowed_tenant]

/-- Witness for the amended C3 at a concrete claim set without `tid`. -/
theorem C3_amended_witness :
    get_token_from_code noTidEnv "abc" = some "tok1" ∧
    ("tok1" : String).isEmpty = false ∧
    get_tenant_id_from_token noTidEnv "tok1" = none ∧
    ((handle_auth_code noTidEnv SessionState.empty "abc").displays
        = [Display.invalidTenantScreen] ∧
     (handle_auth_code noTidEnv SessionState.empty "abc").result = Except.ok false ∧
     (handle_auth_code noTidEnv SessionState.empty "abc").session = SessionState.empty) :=
  ⟨rfl, rfl, rfl,
   C3_missing_claim_routes_to_access_denied noTidEnv SessionState.empty
     "abc" "tok1" rfl rfl rfl⟩

/-- C4: counter-evidence. `clear_session`'s `keys_to_clear` list omits
`access_token`, so after a logout from an initialized session the access
token is still present in the session state (while `user_info` and the
authenticated flag are gone). -/
theorem C4_clear_session_leaves_access_token :
    (SessionManager.clear_session authSession).access_token = some "tok0" ∧
    SessionManager.is_authenticated (SessionManager.clear_session authSession) = false ∧
    (SessionManager.clear_session authSession).user_info = none :=
  ⟨rfl, rfl, rfl⟩

/-- C6: when the session is already authenticated,
`enforce_auth_or_display_sign_in` returns `True` immediately: no network call
is made, nothing is rendered, and the session state and query parameters are
left exactly as they were. -/
theorem C6_already_authenticated_noop (env : AuthEnv) (s : SessionState)
    (query_params : Dict) (h : SessionManager.is_authenticated s = true) :
    enforce_auth_or_display_sign_in env s query_params =
      { result := Except.ok true, session := s, query_params := query_params,
        displays := [], steps := [], net_calls := [] } := by
  simp [enforce_auth_or_display_sign_in, h]

/-- Witness for C6 at a concrete authenticated session. -/
theorem C6_witness :
    SessionManager.is_authenticated authSession = true ∧
    enforce_auth_or_display_sign_in okEnv authSession [("x", "y")] =
      { result := Except.ok true, session := authSession,
        query_params := [("x", "y")], displays := [], steps := [],
        net_calls := [] } :=
  ⟨rfl, C6_already_authenticated_noop okEnv authSession [("x", "y")] rfl⟩

/-- C7: when the token exchange raises or yields no (or an empty) access
token, `handle_auth_code` returns `False` with the generic failure message
after attempting only the token-acquisition step: claim extraction and the
profile fetch are never attempted, the only network call is the token
exchange, and the session is untouched. -/
theorem C7_token_exchange_failure_fail_fast (env : AuthEnv) (s : SessionState)
    (auth_code : String)
    (h : get_token_from_code env auth_code = none ∨
         get_token_from_code env auth_code = some "") :
    (handle_auth_code env s auth_code).result = Except.ok false ∧
    (handle_auth_code env s auth_code).displays
        = [Display.errorMsg "Authentication failed."] ∧
    (handle_auth_code env s auth_code).steps = [Step.tokenAcquisition] ∧
    Step.claimExtraction ∉ (handle_auth_code env s auth_code).steps ∧
    Step.profileFetch ∉ (handle_auth_code env s auth_code).steps ∧
    (handle_auth_code env s auth_code).net_calls
        = [NetCall.tokenExchange auth_code] ∧
    (handle_auth_code env s auth_code).session = s := by
  have hemp : ("" : String).isEmpty = true := rfl
  rcases h with h | h <;> unfold handle_auth_code <;> rw [h] <;> simp [hemp]

/-- Witness for C7 at a concrete environment whose token exchange raises. -/
theorem C7_witness :
    (get_token_from_code exchangeFailEnv "abc" = none ∨
     get_token_from_code exchangeFailEnv "abc" = some "") ∧
    ((handle_auth_code exchangeFailEnv SessionState.empty "abc").result
        = Except.ok false ∧
     (handle_auth_code exchangeFailEnv SessionState.empty "abc").displays
        = [Display.errorMsg "Authentication failed."] ∧
     (handle_auth_code exchangeFailEnv SessionState.empty "abc").steps
        = [Step.tokenAcquisition] ∧
     Step.claimExtraction ∉ (handle_auth_code exchangeFailEnv SessionState.empty "abc").steps ∧
     Step.profileFetch ∉ (handle_auth_code exchangeFailEnv SessionState.empty "abc").steps ∧
     (handle_auth_code exchangeFailEnv SessionState.empty "abc").net_calls
        = [NetCall.tokenExchange "abc"] ∧
     (handle_auth_code exchangeFailEnv SessionState.empty "abc").session
        = SessionState.empty) :=
  ⟨Or.inl rfl,
   C7_token_exchange_failure_fail_fast exchangeFailEnv SessionState.empty
     "abc" (Or.inl rfl)⟩

/-- C8: every invocation of `handle_auth_code` — success, token-exchange
failure, tenant rejection, or profile-fetch failure — returns with the query
parameters cleared (in particular without the `code` parameter), because
`st.query_params.clear()` runs before any branch. -/
theorem C8_query_params_cleared (env : AuthEnv) (s : SessionState)
    (auth_code : String) :
    (handle_auth_code env s auth_code).query_params = [] ∧
    (handle_auth_code env s auth_code).query_params.lookup "code" = none := by
  have h : (handle_auth_code env s auth_code).query_params = [] := by
    unfold handle_auth_code
    repeat' split
    all_goals rfl
  rw [h]
  exact ⟨rfl, rfl⟩

/-- C9: in every session state reachable by the Session Store's operations
from the fresh session, a true `is_authenticated()` implies that both an
access token and a user-info value are present in the session state. -/
theorem C9_auth_implies_token_and_profile_present (s : SessionState)
    (hr : ReachableSession s) (ha : SessionManager.is_authenticated s = true) :
    s.access_token.isSome = true ∧ s.user_info.isSome = true := by
  revert ha
  induction hr with
  | empty =>
    intro ha
    exact absurd ha (by decide)
  | init access_token user_info t ht ih =>
    intro ha
    exact ⟨rfl, rfl⟩
  | clear t ht ih =>
    intro ha
    simp [SessionManager.is_authenticated, SessionManager.clear_session] at ha

/-- Witness for C9 at a concrete reachable authenticated state. -/
theorem C9_witness :
    ReachableSession authSession ∧
    SessionManager.is_authenticated authSession = true ∧
    (authSession.access_token.isSome = true ∧ authSession.user_info.isSome = true) :=
  ⟨ReachableSession.init "tok0" [("displayName", "Bob")] SessionState.empty
     ReachableSession.empty,
   rfl,
   C9_auth_implies_token_and_profile_present authSession
     (ReachableSession.init "tok0" [("displayName", "Bob")] SessionState.empty
       ReachableSession.empty)
     rfl⟩

/-- C10: `SessionManager.get_user_info` is total: whenever no user profile is
stored in the session state, it returns the empty record rather than `None`
or an error. -/
theorem C10_get_user_info_total (s : SessionState) (h : s.user_info = none) :
    SessionManager.get_user_info s = [] := by
  simp [SessionManager.get_user_info, h]

/-- Witness for C10 at the state reached by clearing an initialized session. -/
theorem C10_witness :
    (SessionManager.clear_session authSession).user_info = none ∧
    SessionManager.get_user_info (SessionManager.clear_session authSession) = [] :=
  ⟨rfl, C10_get_user_info_total (SessionManager.clear_session authSession) rfl⟩
